import Mathlib

/-!
Shallow embedding of the Ip-LMS web application core (src/ipelms), covering
the session/CSRF guard, the rate limiter, authorization predicates, the
attachment store path logic, and the handlers for lessons, assignments,
courses and login that the verified properties are about.

Conventions of the embedding:
  - database rows are Lean structures, tables are lists;
  - the filesystem is a list of normalized absolute paths, a path being a
    list of segments; file.save inserts, Path.unlink removes;
  - HTTP responses are a small inductive type: hard aborts carry the status
    code, redirects with a flash notice carry target, message and category;
  - nondeterministic inputs of the code (secrets.token_urlsafe, time.time,
    float parsing, password-hash verification, a filesystem delete failing)
    are explicit parameters of the embedded functions.
-/

namespace IpeLMS

/-- A filesystem path as a list of segments. -/
abbrev FPath := List String

/-- The filesystem: the set of existing files, as normalized absolute paths. -/
abbrev FS := List FPath

/-- HTTP responses relevant to the handlers: a hard abort with a status code,
sending a file, or a redirect carrying a flashed notice (target endpoint,
message, category). -/
inductive Resp where
  | err : Nat → Resp
  | sendFile : FPath → Resp
  | redirectNotice : String → String → String → Resp
  deriving Repr, DecidableEq

/-- Row of the users table (auth.py queries id, name, email, password_hash, role). -/
structure User where
  id : Nat
  name : String
  email : String
  password_hash : String
  role : String
  deriving Repr, DecidableEq

/-- Row of the lessons table (fields the handlers read/write). -/
structure Lesson where
  id : Nat
  course_id : Nat
  title : String
  content : String
  attachment_path : Option FPath
  deriving Repr, DecidableEq

/-- Row of the assignments table (fields the handlers read). -/
structure Assignment where
  id : Nat
  course_id : Nat
  deriving Repr, DecidableEq

/-- Row of the submissions table (fields the handlers read/write). -/
structure Submission where
  id : Nat
  assignment_id : Nat
  student_id : Nat
  text : Option String
  attachment_path : Option FPath
  grade : Option ℚ
  feedback : Option String
  deriving Repr, DecidableEq

/-- The relational state the embedded handlers touch. course_instructors and
course_members are the edge relations (course_id, user_id); next_lesson_id and
next_submission_id model sqlite AUTOINCREMENT ids. -/
structure DB where
  courses : List Nat
  users : List User
  course_instructors : List (Nat × Nat)
  course_members : List (Nat × Nat)
  lessons : List Lesson
  assignments : List Assignment
  submissions : List Submission
  next_lesson_id : Nat
  next_submission_id : Nat
  deriving Repr, DecidableEq

/-- SELECT 1 FROM course_instructors WHERE course_id=? AND user_id=? (bool). -/
def is_instructor (db : DB) (user_id course_id : Nat) : Bool :=
  decide ((course_id, user_id) ∈ db.course_instructors)

/-- SELECT 1 FROM course_members WHERE course_id=? AND user_id=? (bool). -/
def is_member (db : DB) (user_id course_id : Nat) : Bool :=
  decide ((course_id, user_id) ∈ db.course_members)

/-! ## Path resolution (pathlib resolve and the parents check) -/

/-- Normalization performed by Path.resolve on a segment list: a ".." pops the
last segment, a "." is dropped, other segments are appended. -/
def resolveSegs (segs : List String) : FPath :=
  segs.foldl (fun acc s => if s = ".." then acc.dropLast else if s = "." then acc else acc ++ [s]) []

/-- Whether the first path is an ancestor-or-equal of the second
(segment-wise leading match). -/
def isAncestorOf : FPath → FPath → Bool
  | [], _ => true
  | _ :: _, [] => false
  | a :: as, b :: bs => a == b && isAncestorOf as bs

/-- Embedding of _is_under_uploads (lessons.py / assignments.py): the resolved
upload root is among the resolved path's parents, i.e. a strict ancestor. -/
def is_under_uploads (root : FPath) (p : FPath) : Bool :=
  isAncestorOf (resolveSegs root) (resolveSegs p) && !(resolveSegs p == resolveSegs root)

/-- Whether a file exists: os-level existence resolves "..", so the filesystem
is kept as normalized paths and lookup takes the normalized path. -/
def pathExists (fs : FS) (p : FPath) : Bool :=
  fs.contains p

/-- file.save: create or overwrite the file at a normalized path. -/
def fsSave (fs : FS) (p : FPath) : FS :=
  if fs.contains p then fs else p :: fs

/-! ## security.py -/

/-- The flask session state the security layer reads and writes. -/
structure Session where
  user_id : Option Nat
  csrf_token : Option String
  deriving Repr, DecidableEq

/-- Embedding of get_csrf_token (security.py lines 11-17). The fresh token
(secrets.token_urlsafe 32) is passed as a parameter; a stored empty token is
falsy in Python and is regenerated. Returns the token and the updated session. -/
def get_csrf_token (fresh : String) (s : Session) : String × Session :=
  match s.csrf_token with
  | none => (fresh, { s with csrf_token := some fresh })
  | some t =>
    if t = "" then (fresh, { s with csrf_token := some fresh })
    else (t, s)

/-- Request data the csrf_protect decorator reads. -/
structure Req where
  method : String
  form_csrf : Option String
  header_csrf : Option String
  deriving Repr, DecidableEq

/-- The mutating verbs guarded by csrf_protect. -/
def mutatingMethod (m : String) : Bool :=
  m == "POST" || m == "PUT" || m == "PATCH" || m == "DELETE"

/-- The token csrf_protect compares: request.form.get("csrf_token") or
request.headers.get("X-CSRF-Token") with Python falsy-or, so an empty form
value falls through to the header. -/
def suppliedCsrf (r : Req) : Option String :=
  match r.form_csrf with
  | some t => if t = "" then r.header_csrf else some t
  | none => r.header_csrf

/-- Embedding of the csrf_protect decorator (security.py lines 19-28) applied
to a view over the database state: on a mutating method, a missing or empty or
mismatched token aborts 400 before the view runs; otherwise the view runs. -/
def csrf_protect (view : DB → DB × Resp) (r : Req) (sess_token : Option String) (db : DB) : DB × Resp :=
  if mutatingMethod r.method then
    match suppliedCsrf r with
    | none => (db, .err 400)
    | some tok =>
      if tok = "" then (db, .err 400)
      else if some tok ≠ sess_token then (db, .err 400)
      else view db
  else view db

/-- Rate-limit counter entry: {"count": n, "window_start": t}. -/
structure RLData where
  count : Nat
  window_start : ℚ
  deriving Repr, DecidableEq

/-- Embedding of one pass through the rate_limit wrapper body for a fixed key
(security.py lines 51-64): time.time() is the now parameter; returns the
updated store entry and whether the view is invoked (false means abort 429,
which happens after the increment). -/
def rate_limit_step (maxReq : Nat) (windowSec : ℚ) (now : ℚ) (st : Option RLData) :
    Option RLData × Bool :=
  match st with
  | none => (some ⟨1, now⟩, true)
  | some d =>
    if now - d.window_start > windowSec then (some ⟨1, now⟩, true)
    else
      (some ⟨d.count + 1, d.window_start⟩, decide (d.count + 1 ≤ maxReq))

/-- Running the rate limiter over a sequence of call times, returning the final
store entry and the allow/deny outcome of each call in order. -/
def rl_run (maxReq : Nat) (w : ℚ) : List ℚ → Option RLData → Option RLData × List Bool
  | [], st => (st, [])
  | t :: ts, st =>
    let p := rate_limit_step maxReq w t st
    let q := rl_run maxReq w ts p.1
    (q.1, p.2 :: q.2)

/-! ## Upload helpers (lessons.py / assignments.py) -/

/-- An uploaded file as the handlers see it (request.files.get). -/
structure UploadFile where
  filename : String
  deriving Repr, DecidableEq

/-- Whitespace for Python str.strip. -/
def isPySpace (c : Char) : Bool :=
  c == ' ' || c == '\t' || c == '\n' || c == '\r'

/-- Python str.strip(): drop leading and trailing whitespace. -/
def pyStrip (s : String) : String :=
  String.mk (((s.toList.dropWhile isPySpace).reverse.dropWhile isPySpace).reverse)

/-- Python str.lower(). -/
def pyLower (s : String) : String :=
  String.mk (s.toList.map Char.toLower)

/-- Split a character list on a separator character (Python str.split). -/
def splitOnChar (sep : Char) : List Char → List (List Char)
  | [] => [[]]
  | c :: cs =>
    let r := splitOnChar sep cs
    if c == sep then [] :: r
    else
      match r with
      | [] => [[c]]
      | h :: t => (c :: h) :: t

/-- Modelled from the spec: the filename sanitizer (werkzeug.secure_filename,
an external collaborator outside this repository) strips directory components
and unsafe characters from the client-supplied filename. -/
def secure_filename (s : String) : String :=
  let base := (splitOnChar '/' s.toList).getLastD []
  let base2 := (splitOnChar '\\' base).getLastD []
  String.mk (base2.filter (fun c => c.isAlphanum || c == '.' || c == '-' || c == '_'))

/-- The extension allow-list ALLOWED_EXT (lessons.py line 17, assignments.py
line 16). -/
def ALLOWED_EXT : List String :=
  ["pdf", "txt", "md", "png", "jpg", "jpeg", "gif", "zip", "pptx", "docx", "csv"]

/-- Embedding of _allowed_file: the filename contains a dot and the text after
the last dot, lower-cased, is in the allow-list. -/
def allowed_file (filename : String) : Bool :=
  filename.toList.contains '.' &&
    ALLOWED_EXT.contains (pyLower (String.mk ((splitOnChar '.' filename.toList).getLastD [])))

/-! ## lessons.py handlers -/

/-- Embedding of lessons.create (lessons.py lines 79-117), after login_required
and csrf_protect have passed. The lesson row is inserted before the attachment
is examined; a disallowed extension redirects after that insert. The filesystem
is the second component of the state. -/
def lessons_create (root : FPath) (uid course_id : Nat) (titleRaw contentRaw : String)
    (file : Option UploadFile) (db : DB) (fs : FS) : DB × FS × Resp :=
  if course_id ∈ db.courses then
    if (course_id, uid) ∈ db.course_instructors then
      let title := pyStrip titleRaw
      let content := pyStrip contentRaw
      if title.length < 3 then
        (db, fs, .redirectNotice "lessons.new" "Título muito curto." "danger")
      else
        let lesson_id := db.next_lesson_id
        let db1 : DB := { db with
          lessons := db.lessons ++ [⟨lesson_id, course_id, title, content, none⟩],
          next_lesson_id := db.next_lesson_id + 1 }
        match file with
        | none => (db1, fs, .redirectNotice "courses.detail" "Aula criada com sucesso!" "success")
        | some f =>
          if f.filename = "" then
            (db1, fs, .redirectNotice "courses.detail" "Aula criada com sucesso!" "success")
          else
            let filename := secure_filename f.filename
            if allowed_file filename then
              let relPath : FPath :=
                ["courses", toString course_id, "lessons",
                 "lesson_" ++ toString lesson_id ++ "__" ++ filename]
              let absP := resolveSegs (root ++ relPath)
              let fs1 := fsSave fs absP
              let db2 : DB := { db1 with
                lessons := db1.lessons.map (fun l =>
                  if l.id == lesson_id then { l with attachment_path := some relPath } else l) }
              (db2, fs1, .redirectNotice "courses.detail" "Aula criada com sucesso!" "success")
            else
              (db1, fs, .redirectNotice "lessons.new" "Extensão de arquivo não permitida." "danger")
    else (db, fs, .redirectNotice "courses.detail" "Apenas instrutores podem realizar esta ação." "danger")
  else (db, fs, .redirectNotice "courses.detail" "Curso inexistente." "danger")

/-- Embedding of lessons.edit_post (lessons.py lines 144-191), after
login_required and csrf_protect. delete_fails models the unlink of the old
attachment raising (caught and logged by the code). -/
def lessons_edit_post (root : FPath) (uid lesson_id : Nat) (titleRaw contentRaw : String)
    (file : Option UploadFile) (delete_fails : Bool) (db : DB) (fs : FS) : DB × FS × Resp :=
  match db.lessons.find? (fun l => l.id == lesson_id) with
  | none => (db, fs, .redirectNotice "courses.list_courses" "Aula não encontrada." "danger")
  | some l =>
    if l.course_id ∈ db.courses then
      if (l.course_id, uid) ∈ db.course_instructors then
        let title := pyStrip titleRaw
        let content := pyStrip contentRaw
        if title.length < 3 then
          (db, fs, .redirectNotice "lessons.edit" "Título muito curto." "danger")
        else
          let db1 : DB := { db with
            lessons := db.lessons.map (fun x =>
              if x.id == lesson_id then { x with title := title, content := content } else x) }
          match file with
          | none => (db1, fs, .redirectNotice "lessons.detail" "Aula atualizada." "success")
          | some f =>
            if f.filename = "" then
              (db1, fs, .redirectNotice "lessons.detail" "Aula atualizada." "success")
            else
              let filename := secure_filename f.filename
              if allowed_file filename then
                let relPath : FPath :=
                  ["courses", toString l.course_id, "lessons",
                   "lesson_" ++ toString lesson_id ++ "__" ++ filename]
                let absP := resolveSegs (root ++ relPath)
                let fs1 := fsSave fs absP
                let fs2 :=
                  match l.attachment_path with
                  | none => fs1
                  | some old =>
                    let oldAbs := resolveSegs (root ++ old)
                    if pathExists fs1 oldAbs && is_under_uploads root oldAbs then
                      if delete_fails then fs1 else fs1.erase oldAbs
                    else fs1
                let db2 : DB := { db1 with
                  lessons := db1.lessons.map (fun x =>
                    if x.id == lesson_id then { x with attachment_path := some relPath } else x) }
                (db2, fs2, .redirectNotice "lessons.detail" "Aula atualizada." "success")
              else
                (db1, fs, .redirectNotice "lessons.edit" "Extensão de arquivo não permitida." "danger")
      else (db, fs, .redirectNotice "courses.detail" "Apenas instrutores podem realizar esta ação." "danger")
    else (db, fs, .redirectNotice "courses.detail" "Curso inexistente." "danger")

/-- Embedding of lessons.download (lessons.py lines 218-235), after
login_required: 404 on missing lesson, 403 when the caller can not view, 404
on missing attachment path or missing file, then 403 when the existing file is
not under the upload root, else the file is sent. -/
def lessons_download (root : FPath) (db : DB) (fs : FS) (uid lesson_id : Nat) : Resp :=
  match db.lessons.find? (fun l => l.id == lesson_id) with
  | none => .err 404
  | some l =>
    if !(is_instructor db uid l.course_id || is_member db uid l.course_id) then .err 403
    else
      match l.attachment_path with
      | none => .err 404
      | some rel =>
        let absP := resolveSegs (root ++ rel)
        if !(pathExists fs absP) then .err 404
        else if !(is_under_uploads root absP) then .err 403
        else .sendFile absP

/-! ## assignments.py handlers -/

/-- Embedding of assignments.submit (assignments.py lines 126-178), after
login_required and csrf_protect. The inner option: none means the extension
was rejected (redirect before any database access), otherwise it carries the
new relative path (if a file was uploaded) and the filesystem after saving it. -/
def assignments_submit (root : FPath) (uid assignment_id : Nat) (textRaw : String)
    (file : Option UploadFile) (delete_fails : Bool) (db : DB) (fs : FS) : DB × FS × Resp :=
  match db.assignments.find? (fun a => a.id == assignment_id) with
  | none => (db, fs, .redirectNotice "courses.list_courses" "Tarefa inexistente." "danger")
  | some a =>
    if (a.course_id, uid) ∈ db.course_members then
      let text := pyStrip textRaw
      let fileStep : Option (Option FPath × FS) :=
        match file with
        | none => some (none, fs)
        | some f =>
          if f.filename = "" then some (none, fs)
          else
            let filename := secure_filename f.filename
            if allowed_file filename then
              let relPath : FPath :=
                ["courses", toString a.course_id, "assignments",
                 "assign_" ++ toString assignment_id ++ "__u_" ++ toString uid ++ "__" ++ filename]
              let absP := resolveSegs (root ++ relPath)
              some (some relPath, fsSave fs absP)
            else none
      match fileStep with
      | none => (db, fs, .redirectNotice "assignments.detail" "Extensão de arquivo não permitida." "danger")
      | some (rel_path, fs1) =>
        match db.submissions.find? (fun s => s.assignment_id == assignment_id && s.student_id == uid) with
        | some existing =>
          let fs2 :=
            match rel_path, existing.attachment_path with
            | some _, some old =>
              let oldAbs := resolveSegs (root ++ old)
              if pathExists fs1 oldAbs && is_under_uploads root oldAbs then
                if delete_fails then fs1 else fs1.erase oldAbs
              else fs1
            | _, _ => fs1
          let newText := if text = "" then none else some text
          let db1 : DB := { db with
            submissions := db.submissions.map (fun s =>
              if s.id == existing.id then
                { s with text := newText,
                         attachment_path :=
                           match rel_path with
                           | some r => some r
                           | none => s.attachment_path }
              else s) }
          (db1, fs2, .redirectNotice "assignments.detail" "Envio atualizado." "success")
        | none =>
          let newText := if text = "" then none else some text
          let db1 : DB := { db with
            submissions := db.submissions ++
              [⟨db.next_submission_id, assignment_id, uid, newText, rel_path, none, none⟩],
            next_submission_id := db.next_submission_id + 1 }
          (db1, fs1, .redirectNotice "assignments.detail" "Envio realizado." "success")
    else (db, fs, .redirectNotice "assignments.detail" "Apenas alunos matriculados podem enviar." "danger")

/-- Embedding of assignments.download (assignments.py lines 180-196), after
login_required: the submission joined with its assignment, 404 on missing row
or missing attachment, 403 unless the caller is an instructor of the course or
the submitting student, then 404 when the file is missing or not under the
upload root, else the file is sent. -/
def assignments_download (root : FPath) (db : DB) (fs : FS) (uid submission_id : Nat) : Resp :=
  match db.submissions.find? (fun s => s.id == submission_id) with
  | none => .err 404
  | some s =>
    match db.assignments.find? (fun a => a.id == s.assignment_id) with
    | none => .err 404
    | some a =>
      match s.attachment_path with
      | none => .err 404
      | some rel =>
        if !(is_instructor db uid a.course_id || uid == s.student_id) then .err 403
        else
          let absP := resolveSegs (root ++ rel)
          if !(pathExists fs absP) || !(is_under_uploads root absP) then .err 404
          else .sendFile absP

/-- Embedding of assignments.grade (assignments.py lines 198-233), after
login_required and csrf_protect. parseFloat models Python float() on the
trimmed grade field (none on ValueError). -/
def assignments_grade (uid assignment_id student_id : Nat) (rawGrade feedbackRaw : String)
    (parseFloat : String → Option ℚ) (db : DB) : DB × Resp :=
  match db.assignments.find? (fun a => a.id == assignment_id) with
  | none => (db, .redirectNotice "courses.list_courses" "Tarefa inexistente." "danger")
  | some a =>
    if (a.course_id, uid) ∈ db.course_instructors then
      match db.submissions.find? (fun s => s.assignment_id == assignment_id && s.student_id == student_id) with
      | none => (db, .redirectNotice "assignments.detail" "Não há envio deste aluno para avaliar." "warning")
      | some sub =>
        let fb := if pyStrip feedbackRaw = "" then none else some (pyStrip feedbackRaw)
        let raw := pyStrip rawGrade
        let gradeStep : Option (Option ℚ) :=
          if raw = "" then some none
          else
            match parseFloat raw with
            | none => none
            | some v => some (some v)
        match gradeStep with
        | none => (db, .redirectNotice "assignments.detail" "Nota inválida." "danger")
        | some gv =>
          let db1 : DB := { db with
            submissions := db.submissions.map (fun s =>
              if s.id == sub.id then { s with grade := gv, feedback := fb } else s) }
          (db1, .redirectNotice "assignments.detail" "Nota/feedback salvos." "success")
    else (db, .redirectNotice "assignments.detail" "Apenas instrutores podem lançar notas." "danger")

/-! ## courses.py join, auth.py login -/

/-- Embedding of courses.join (courses.py lines 123-136), after login_required
and csrf_protect. -/
def courses_join (uid course_id : Nat) (db : DB) : DB × Resp :=
  if course_id ∈ db.courses then
    if (course_id, uid) ∈ db.course_members then
      (db, .redirectNotice "courses.detail" "Você já está matriculado neste curso." "info")
    else
      ({ db with course_members := db.course_members ++ [(course_id, uid)] },
       .redirectNotice "courses.detail" "Você entrou no curso." "success")
  else (db, .redirectNotice "courses.list_courses" "Curso inexistente." "danger")

/-- Python str.strip().lower() applied to the email field before lookup. -/
def normalize_email (e : String) : String :=
  pyLower (pyStrip e)

/-- Embedding of auth.login_post (auth.py lines 65-79). verify models
werkzeug's check_password_hash (digest, plaintext). The first component is the
fresh session binding established on success (session.clear then
session user_id := id); none means the session is left as it was. -/
def login_post (verify : String → String → Bool) (db : DB)
    (emailRaw password next_url : String) : Option Nat × Resp :=
  let email := normalize_email emailRaw
  match db.users.find? (fun u => u.email == email) with
  | none => (none, .redirectNotice "auth.login" "Credenciais inválidas." "danger")
  | some u =>
    if verify u.password_hash password then
      (some u.id, .redirectNotice next_url ("Bem-vindo, " ++ u.name ++ "!") "success")
    else
      (none, .redirectNotice "auth.login" "Credenciais inválidas." "danger")

/-! ## Concrete instances used by counterexamples and witnesses -/

/-- The configured upload root used by the concrete instances. -/
def uploadRoot : FPath := ["uploads"]

/-- An empty database with fresh id counters. -/
def emptyDB : DB := ⟨[], [], [], [], [], [], [], 1, 1⟩

/-- Database whose lesson 1 and submission 1 both carry a stored attachment
path that has been externally altered to a traversal ("../secret.txt"); user 1
is an instructor of course 1. -/
def trvDB : DB :=
  { courses := [1]
    users := []
    course_instructors := [(1, 1)]
    course_members := []
    lessons := [⟨1, 1, "T", "c", some ["..", "secret.txt"]⟩]
    assignments := [⟨1, 1⟩]
    submissions := [⟨1, 1, 1, none, some ["..", "secret.txt"], none, none⟩]
    next_lesson_id := 2
    next_submission_id := 2 }

/-- A filesystem holding one file outside the upload root, the target of the
traversal path in trvDB. -/
def trvFS : FS := [["secret.txt"]]

/-- Database for the disallowed-extension runs: user 1 is instructor and
member of course 1, which has assignment 1 and no lessons or submissions. -/
def extDB : DB :=
  { courses := [1]
    users := []
    course_instructors := [(1, 1)]
    course_members := [(1, 1)]
    lessons := []
    assignments := [⟨1, 1⟩]
    submissions := []
    next_lesson_id := 1
    next_submission_id := 1 }

/-- Database for the attachment-replacement run: lesson 1 of course 1 already
has the attachment lesson_1__a.pdf; user 1 is an instructor. -/
def replDB : DB :=
  { courses := [1]
    users := []
    course_instructors := [(1, 1)]
    course_members := []
    lessons := [⟨1, 1, "Old", "c", some ["courses", "1", "lessons", "lesson_1__a.pdf"]⟩]
    assignments := []
    submissions := []
    next_lesson_id := 2
    next_submission_id := 1 }

/-- Filesystem where the previous attachment of replDB exists under the root. -/
def replFS : FS := [["uploads", "courses", "1", "lessons", "lesson_1__a.pdf"]]

/-- Database for the submission-download authorization runs: submission 1 on
assignment 1 of course 1 was made by student 2 and has an attachment; user 9
is an instructor and user 3 a mere member of course 1. -/
def subDB : DB :=
  { courses := [1]
    users := []
    course_instructors := [(1, 9)]
    course_members := [(1, 3)]
    lessons := []
    assignments := [⟨1, 1⟩]
    submissions := [⟨1, 1, 2, none, some ["courses", "1", "assignments", "assign_1__u_2__r.pdf"], none, none⟩]
    next_lesson_id := 1
    next_submission_id := 2 }

/-- Filesystem where the attachment of subDB exists under the root. -/
def subFS : FS := [["uploads", "courses", "1", "assignments", "assign_1__u_2__r.pdf"]]

/-- Database for the grading run: assignment 1 on course 1 with instructor 1
and no submissions. -/
def gradeDB : DB :=
  { courses := [1]
    users := []
    course_instructors := [(1, 1)]
    course_members := [(1, 2)]
    lessons := []
    assignments := [⟨1, 1⟩]
    submissions := []
    next_lesson_id := 1
    next_submission_id := 1 }

/-- Database with one registered user for the login runs. -/
def loginDB : DB :=
  { courses := []
    users := [⟨1, "Ana", "ana@x.com", "H", "student"⟩]
    course_instructors := []
    course_members := []
    lessons := []
    assignments := []
    submissions := []
    next_lesson_id := 1
    next_submission_id := 1 }

/-- Database with one course and no members, for the join runs. -/
def joinDB : DB :=
  { courses := [1]
    users := []
    course_instructors := []
    course_members := []
    lessons := []
    assignments := []
    submissions := []
    next_lesson_id := 1
    next_submission_id := 1 }

/-! ## Theorems -/

/-- One in-window pass of the rate limiter: when no more than windowSec has
elapsed since the window start, the counter increments in place and the call
is allowed exactly when the new count does not exceed the maximum. -/
theorem rl_step_in_window (t ws : ℚ) (c : Nat) (h : t - ws ≤ 60) :
    rate_limit_step 8 60 t (some ⟨c, ws⟩) = (some ⟨c + 1, ws⟩, decide (c + 1 ≤ 8)) := by
  simp only [rate_limit_step]
  rw [if_neg (by linarith : ¬ t - ws > 60)]

/-- C3: on every mutating method (POST/PUT/PATCH/DELETE), a supplied CSRF
token (form field, else header) that is missing, empty, or different from the
session's stored token makes csrf_protect abort 400 without invoking the
guarded view, for every view, leaving the database unchanged; on every
non-mutating method csrf_protect is a no-op around the view. -/
theorem csrf_guard_blocks_invalid (view : DB → DB × Resp) (r : Req) (st : Option String) (db : DB) :
    (mutatingMethod r.method = true →
      (suppliedCsrf r = none ∨ suppliedCsrf r = some "" ∨
        (∃ tok, suppliedCsrf r = some tok ∧ some tok ≠ st)) →
      csrf_protect view r st db = (db, Resp.err 400)) ∧
    (mutatingMethod r.method = false → csrf_protect view r st db = view db) := by
  constructor
  · intro hm hbad
    rcases hbad with h | h | ⟨tok, htok, hne⟩
    · simp [csrf_protect, hm, h]
    · simp [csrf_protect, hm, h]
    · by_cases he : tok = "" <;> simp [csrf_protect, hm, htok, he, hne]
  · intro hm
    simp [csrf_protect, hm]

/-- Witness for C3 at a concrete POST with a mismatched token and a concrete
GET, with a view that would change the response if invoked. -/
theorem csrf_guard_blocks_invalid_witness :
    mutatingMethod "POST" = true ∧
    (suppliedCsrf ⟨"POST", some "x", none⟩ = some "x" ∧ (some "x" : Option String) ≠ some "y") ∧
    csrf_protect (fun d => (d, Resp.err 500)) ⟨"POST", some "x", none⟩ (some "y") emptyDB =
      (emptyDB, Resp.err 400) ∧
    mutatingMethod "GET" = false ∧
    csrf_protect (fun d => (d, Resp.err 500)) ⟨"GET", some "x", none⟩ (some "y") emptyDB =
      (emptyDB, Resp.err 500) :=
  ⟨by decide, ⟨by decide, by decide⟩,
    (csrf_guard_blocks_invalid (fun d => (d, Resp.err 500)) ⟨"POST", some "x", none⟩ (some "y") emptyDB).1
      (by decide) (Or.inr (Or.inr ⟨"x", by decide, by decide⟩)),
    by decide,
    (csrf_guard_blocks_invalid (fun d => (d, Resp.err 500)) ⟨"GET", some "x", none⟩ (some "y") emptyDB).2
      (by decide)⟩

/-- C4: with max_requests 8 and window_seconds 60, nine calls whose times all
lie within 60 of the first call give eight allowed calls and a ninth denied
one, with the counter at 9 and the window still anchored at the first call;
a further call strictly more than 60 after the first resets the window and is
allowed. -/
theorem rate_limiter_fixed_window (t1 t2 t3 t4 t5 t6 t7 t8 t9 t10 : ℚ)
    (h2 : t2 - t1 ≤ 60) (h3 : t3 - t1 ≤ 60) (h4 : t4 - t1 ≤ 60) (h5 : t5 - t1 ≤ 60)
    (h6 : t6 - t1 ≤ 60) (h7 : t7 - t1 ≤ 60) (h8 : t8 - t1 ≤ 60) (h9 : t9 - t1 ≤ 60)
    (h10 : t10 - t1 > 60) :
    rl_run 8 60 [t1, t2, t3, t4, t5, t6, t7, t8, t9] none =
      (some ⟨9, t1⟩, [true, true, true, true, true, true, true, true, false]) ∧
    rate_limit_step 8 60 t10 (some ⟨9, t1⟩) = (some ⟨1, t10⟩, true) := by
  have e1 : rate_limit_step 8 60 t1 none = (some ⟨1, t1⟩, true) := rfl
  have e2 : rate_limit_step 8 60 t2 (some ⟨1, t1⟩) = (some ⟨2, t1⟩, true) := by
    rw [rl_step_in_window t2 t1 1 h2]; norm_num
  have e3 : rate_limit_step 8 60 t3 (some ⟨2, t1⟩) = (some ⟨3, t1⟩, true) := by
    rw [rl_step_in_window t3 t1 2 h3]; norm_num
  have e4 : rate_limit_step 8 60 t4 (some ⟨3, t1⟩) = (some ⟨4, t1⟩, true) := by
    rw [rl_step_in_window t4 t1 3 h4]; norm_num
  have e5 : rate_limit_step 8 60 t5 (some ⟨4, t1⟩) = (some ⟨5, t1⟩, true) := by
    rw [rl_step_in_window t5 t1 4 h5]; norm_num
  have e6 : rate_limit_step 8 60 t6 (some ⟨5, t1⟩) = (some ⟨6, t1⟩, true) := by
    rw [rl_step_in_window t6 t1 5 h6]; norm_num
  have e7 : rate_limit_step 8 60 t7 (some ⟨6, t1⟩) = (some ⟨7, t1⟩, true) := by
    rw [rl_step_in_window t7 t1 6 h7]; norm_num
  have e8 : rate_limit_step 8 60 t8 (some ⟨7, t1⟩) = (some ⟨8, t1⟩, true) := by
    rw [rl_step_in_window t8 t1 7 h8]; norm_num
  have e9 : rate_limit_step 8 60 t9 (some ⟨8, t1⟩) = (some ⟨9, t1⟩, false) := by
    rw [rl_step_in_window t9 t1 8 h9]; norm_num
  constructor
  · simp [rl_run, e1, e2, e3, e4, e5, e6, e7, e8, e9]
  · simp only [rate_limit_step]
    rw [if_pos h10]

/-- Witness for C4 at the concrete call times 0, 1, ..., 8 and 61. -/
theorem rate_limiter_fixed_window_witness :
    rl_run 8 60 [0, 1, 2, 3, 4, 5, 6, 7, 8] none =
      (some ⟨9, 0⟩, [true, true, true, true, true, true, true, true, false]) ∧
    rate_limit_step 8 60 61 (some ⟨9, 0⟩) = (some ⟨1, 61⟩, true) :=
  rate_limiter_fixed_window 0 1 2 3 4 5 6 7 8 61
    (by norm_num) (by norm_num) (by norm_num) (by norm_num) (by norm_num)
    (by norm_num) (by norm_num) (by norm_num) (by norm_num)

/-- C7: calling the CSRF-token accessor twice without an intervening session
clear returns the same token and leaves the session unchanged, the first call
storing a token when none (or an empty one) is present; the freshly generated
token is nonempty, as secrets.token_urlsafe always is. -/
theorem csrf_token_idempotent (s : Session) (f1 f2 : String) (h : f1 ≠ "") :
    (get_csrf_token f2 (get_csrf_token f1 s).2).1 = (get_csrf_token f1 s).1 ∧
    (get_csrf_token f2 (get_csrf_token f1 s).2).2 = (get_csrf_token f1 s).2 := by
  obtain ⟨uid, tok⟩ := s
  cases tok with
  | none => simp [get_csrf_token, h]
  | some t =>
    by_cases ht : t = ""
    · simp [get_csrf_token, ht, h]
    · simp [get_csrf_token, ht]

/-- Witness for C7 on a fresh session with concrete generated tokens. -/
theorem csrf_token_idempotent_witness :
    ("a" : String) ≠ "" ∧
    (get_csrf_token "b" (get_csrf_token "a" ⟨none, none⟩).2).1 = (get_csrf_token "a" ⟨none, none⟩).1 ∧
    (get_csrf_token "b" (get_csrf_token "a" ⟨none, none⟩).2).2 = (get_csrf_token "a" ⟨none, none⟩).2 :=
  ⟨by decide, csrf_token_idempotent ⟨none, none⟩ "a" "b" (by decide)⟩

/-- C1 counterexample: a lesson whose stored attachment path has been altered
to the traversal ../secret.txt, where the target file exists outside the
upload root, is served a 403 by lessons.download, not the NotFound the claim
requires, so traversal IS surfaced as a distinct error on lesson downloads. -/
theorem lesson_download_traversal_gives_403 :
    is_under_uploads uploadRoot (resolveSegs (uploadRoot ++ ["..", "secret.txt"])) = false ∧
    lessons_download uploadRoot trvDB trvFS 1 1 = Resp.err 403 ∧
    lessons_download uploadRoot trvDB trvFS 1 1 ≠ Resp.err 404 := by
  decide

/-- C1 amended: a submission download whose stored attachment path resolves
outside the upload root is answered 404 (once the request is past the
authorization check); a lesson download with such a path is answered 404 when
the resolved file does not exist, but 403 when it exists. -/
theorem download_traversal_amended (root : FPath) (db : DB) (fs : FS) (uid lid sid : Nat)
    (l : Lesson) (rel : FPath) (s : Submission) (a : Assignment) (rel2 : FPath)
    (hl : db.lessons.find? (fun x => x.id == lid) = some l)
    (hv : (is_instructor db uid l.course_id || is_member db uid l.course_id) = true)
    (hrel : l.attachment_path = some rel)
    (hout : is_under_uploads root (resolveSegs (root ++ rel)) = false)
    (hs : db.submissions.find? (fun x => x.id == sid) = some s)
    (ha : db.assignments.find? (fun x => x.id == s.assignment_id) = some a)
    (hrel2 : s.attachment_path = some rel2)
    (hauth : (is_instructor db uid a.course_id || uid == s.student_id) = true)
    (hout2 : is_under_uploads root (resolveSegs (root ++ rel2)) = false) :
    assignments_download root db fs uid sid = Resp.err 404 ∧
    lessons_download root db fs uid lid =
      (if pathExists fs (resolveSegs (root ++ rel)) then Resp.err 403 else Resp.err 404) := by
  constructor
  · simp [assignments_download, hs, ha, hrel2, hauth, hout2]
  · by_cases hp : pathExists fs (resolveSegs (root ++ rel)) <;>
      simp [lessons_download, hl, hv, hrel, hout, hp]

/-- Witness for the amended C1 on the concrete traversal database: user 1 is
authorized for both the lesson and the submission, the traversal target
exists, the submission download yields 404 and the lesson download 403. -/
theorem download_traversal_amended_witness :
    assignments_download uploadRoot trvDB trvFS 1 1 = Resp.err 404 ∧
    lessons_download uploadRoot trvDB trvFS 1 1 =
      (if pathExists trvFS (resolveSegs (uploadRoot ++ ["..", "secret.txt"])) then Resp.err 403
       else Resp.err 404) :=
  download_traversal_amended uploadRoot trvDB trvFS 1 1 1
    ⟨1, 1, "T", "c", some ["..", "secret.txt"]⟩ ["..", "secret.txt"]
    ⟨1, 1, 1, none, some ["..", "secret.txt"], none, none⟩ ⟨1, 1⟩ ["..", "secret.txt"]
    (by decide) (by decide) (by decide) (by decide) (by decide) (by decide)
    (by decide) (by decide) (by decide)

/-- C2 counterexample: a lesson-creation request by an instructor carrying a
file with the disallowed extension .exe redirects with the notice, stores no
file, yet has already inserted the lesson row, so a database row IS created. -/
theorem lesson_create_bad_extension_inserts_row :
    allowed_file (secure_filename "notes.exe") = false ∧
    (lessons_create uploadRoot 1 1 "Abc" "c" (some ⟨"notes.exe"⟩) extDB []).1.lessons.length =
      extDB.lessons.length + 1 ∧
    (lessons_create uploadRoot 1 1 "Abc" "c" (some ⟨"notes.exe"⟩) extDB []).2.1 = [] ∧
    (lessons_create uploadRoot 1 1 "Abc" "c" (some ⟨"notes.exe"⟩) extDB []).2.2 =
      Resp.redirectNotice "lessons.new" "Extensão de arquivo não permitida." "danger" := by
  decide

/-- C2 amended: an upload whose sanitized extension is not in the allow-list
redirects with a notice and stores no file; for a submission no database row
is created or updated at all, while for lesson creation the lesson row has
already been inserted (without any attachment path) before the extension is
examined, and that row is the only database change. -/
theorem bad_extension_no_partial_write_amended (root : FPath) (db db2 : DB) (fs fs2 : FS)
    (uid cid aid : Nat) (title content text : String) (f : UploadFile) (dfail : Bool)
    (a : Assignment)
    (hf : f.filename ≠ "")
    (hext : allowed_file (secure_filename f.filename) = false)
    (hc : cid ∈ db.courses) (hi : (cid, uid) ∈ db.course_instructors)
    (ht : ¬ (pyStrip title).length < 3)
    (ha : db2.assignments.find? (fun x => x.id == aid) = some a)
    (hm : (a.course_id, uid) ∈ db2.course_members) :
    lessons_create root uid cid title content (some f) db fs =
      ({ db with
          lessons := db.lessons ++ [⟨db.next_lesson_id, cid, pyStrip title, pyStrip content, none⟩],
          next_lesson_id := db.next_lesson_id + 1 }, fs,
        Resp.redirectNotice "lessons.new" "Extensão de arquivo não permitida." "danger") ∧
    assignments_submit root uid aid text (some f) dfail db2 fs2 =
      (db2, fs2, Resp.redirectNotice "assignments.detail" "Extensão de arquivo não permitida." "danger") := by
  constructor
  · simp [lessons_create, hc, hi, ht, hf, hext]
  · simp [assignments_submit, ha, hm, hf, hext]

/-- Witness for the amended C2 at a concrete instructor-and-member user, title
and .exe upload. -/
theorem bad_extension_no_partial_write_amended_witness :
    lessons_create uploadRoot 1 1 "Abc" "c" (some ⟨"notes.exe"⟩) extDB [] =
      ({ extDB with
          lessons := extDB.lessons ++ [⟨extDB.next_lesson_id, 1, pyStrip "Abc", pyStrip "c", none⟩],
          next_lesson_id := extDB.next_lesson_id + 1 }, [],
        Resp.redirectNotice "lessons.new" "Extensão de arquivo não permitida." "danger") ∧
    assignments_submit uploadRoot 1 1 "hi" (some ⟨"notes.exe"⟩) false extDB [] =
      (extDB, [], Resp.redirectNotice "assignments.detail" "Extensão de arquivo não permitida." "danger") :=
  bad_extension_no_partial_write_amended uploadRoot extDB extDB [] [] 1 1 1 "Abc" "c" "hi"
    ⟨"notes.exe"⟩ false ⟨1, 1⟩ (by decide) (by decide) (by decide) (by decide)
    (by decide) (by decide) (by decide)

/-- C5: for a submission with an attachment, a user who is neither an
instructor of the course nor the submitting student gets 403 from
assignments.download, and a user who is an instructor or the submitter never
gets 403 (mere membership plays no role in the check). -/
theorem submission_download_authorization (root : FPath) (db : DB) (fs : FS) (uid sid : Nat)
    (s : Submission) (a : Assignment) (rel : FPath)
    (hs : db.submissions.find? (fun x => x.id == sid) = some s)
    (ha : db.assignments.find? (fun x => x.id == s.assignment_id) = some a)
    (hrel : s.attachment_path = some rel) :
    ((is_instructor db uid a.course_id = false ∧ uid ≠ s.student_id) →
      assignments_download root db fs uid sid = Resp.err 403) ∧
    ((is_instructor db uid a.course_id = true ∨ uid = s.student_id) →
      assignments_download root db fs uid sid ≠ Resp.err 403) := by
  constructor
  · rintro ⟨h1, h2⟩
    simp [assignments_download, hs, ha, hrel, h1, h2]
  · intro h
    have hcond : (is_instructor db uid a.course_id || uid == s.student_id) = true := by
      rcases h with h | h <;> simp [h]
    simp [assignments_download, hs, ha, hrel, hcond]
    split <;> simp

/-- Witness for C5 on the concrete submission database: member 3 (neither
instructor nor submitter) gets 403; submitter 2 does not get 403. -/
theorem submission_download_authorization_witness :
    (assignments_download uploadRoot subDB subFS 3 1 = Resp.err 403) ∧
    (assignments_download uploadRoot subDB subFS 2 1 ≠ Resp.err 403) :=
  ⟨(submission_download_authorization uploadRoot subDB subFS 3 1
      ⟨1, 1, 2, none, some ["courses", "1", "assignments", "assign_1__u_2__r.pdf"], none, none⟩
      ⟨1, 1⟩ ["courses", "1", "assignments", "assign_1__u_2__r.pdf"]
      (by decide) (by decide) (by decide)).1 (by decide),
   (submission_download_authorization uploadRoot subDB subFS 2 1
      ⟨1, 1, 2, none, some ["courses", "1", "assignments", "assign_1__u_2__r.pdf"], none, none⟩
      ⟨1, 1⟩ ["courses", "1", "assignments", "assign_1__u_2__r.pdf"]
      (by decide) (by decide) (by decide)).2 (Or.inr (by decide))⟩

/-- C6: evaluation of the replacement flow at the failing input. Editing
lesson 1 and uploading a file named a.pdf, identical to the name of the
previous attachment, succeeds and stores the new relative path in the row,
yet the file at that path no longer exists when the operation completes: the
post-save cleanup unlinks the very file that was just written, because the
old and new destination coincide. -/
theorem attachment_replacement_same_name_deletes_new_file :
    (lessons_edit_post uploadRoot 1 1 "New title" "c" (some ⟨"a.pdf"⟩) false replDB replFS).2.2 =
      Resp.redirectNotice "lessons.detail" "Aula atualizada." "success" ∧
    (lessons_edit_post uploadRoot 1 1 "New title" "c" (some ⟨"a.pdf"⟩) false replDB replFS).1.lessons =
      [⟨1, 1, "New title", "c", some ["courses", "1", "lessons", "lesson_1__a.pdf"]⟩] ∧
    pathExists (lessons_edit_post uploadRoot 1 1 "New title" "c" (some ⟨"a.pdf"⟩) false replDB replFS).2.1
      (resolveSegs (uploadRoot ++ ["courses", "1", "lessons", "lesson_1__a.pdf"])) = false := by
  decide

/-- C8: joining an existing course while not yet a member appends exactly the
one membership edge with a success notice; joining again changes nothing and
yields the informational already-enrolled notice. -/
theorem join_course_idempotent (uid course_id : Nat) (db : DB)
    (hc : course_id ∈ db.courses) (hm : (course_id, uid) ∉ db.course_members) :
    (courses_join uid course_id db).1.course_members = db.course_members ++ [(course_id, uid)] ∧
    (courses_join uid course_id db).2 =
      Resp.redirectNotice "courses.detail" "Você entrou no curso." "success" ∧
    courses_join uid course_id (courses_join uid course_id db).1 =
      ((courses_join uid course_id db).1,
        Resp.redirectNotice "courses.detail" "Você já está matriculado neste curso." "info") := by
  refine ⟨?_, ?_, ?_⟩
  · simp [courses_join, hc, hm]
  · simp [courses_join, hc, hm]
  · simp [courses_join, hc, hm, List.mem_append]

/-- Witness for C8: user 7 joins course 1 of the concrete one-course database
twice. -/
theorem join_course_idempotent_witness :
    (courses_join 7 1 joinDB).1.course_members = joinDB.course_members ++ [(1, 7)] ∧
    (courses_join 7 1 joinDB).2 =
      Resp.redirectNotice "courses.detail" "Você entrou no curso." "success" ∧
    courses_join 7 1 (courses_join 7 1 joinDB).1 =
      ((courses_join 7 1 joinDB).1,
        Resp.redirectNotice "courses.detail" "Você já está matriculado neste curso." "info") :=
  join_course_idempotent 7 1 joinDB (by decide) (by decide)

/-- C9: a grading request by an instructor of the assignment's course for a
student with no submission row leaves the database (in particular the
submissions table) unchanged and redirects with the warning notice. -/
theorem grade_without_submission_warns_no_change (uid assignment_id student_id : Nat)
    (rawGrade feedbackRaw : String) (parseFloat : String → Option ℚ) (db : DB) (a : Assignment)
    (ha : db.assignments.find? (fun x => x.id == assignment_id) = some a)
    (hi : (a.course_id, uid) ∈ db.course_instructors)
    (hs : db.submissions.find?
      (fun s => s.assignment_id == assignment_id && s.student_id == student_id) = none) :
    assignments_grade uid assignment_id student_id rawGrade feedbackRaw parseFloat db =
      (db, Resp.redirectNotice "assignments.detail" "Não há envio deste aluno para avaliar." "warning") := by
  simp [assignments_grade, ha, hi, hs]

/-- Witness for C9: instructor 1 grades student 2 on assignment 1 of the
concrete database with an empty submissions table. -/
theorem grade_without_submission_warns_no_change_witness :
    assignments_grade 1 1 2 "9.5" "ok" (fun _ => none) gradeDB =
      (gradeDB,
        Resp.redirectNotice "assignments.detail" "Não há envio deste aluno para avaliar." "warning") :=
  grade_without_submission_warns_no_change 1 1 2 "9.5" "ok" (fun _ => none) gradeDB ⟨1, 1⟩
    (by decide) (by decide) (by decide)

/-- C10: a login attempt with an email matching no user and one with an
existing user's email but a password the hash verifier rejects produce the
identical generic invalid-credentials response, and neither binds a session. -/
theorem login_failure_indistinguishable (verify : String → String → Bool) (db : DB)
    (e1 p1 e2 p2 nx : String) (u : User)
    (h1 : db.users.find? (fun x => x.email == normalize_email e1) = none)
    (h2 : db.users.find? (fun x => x.email == normalize_email e2) = some u)
    (hv : verify u.password_hash p2 = false) :
    (login_post verify db e1 p1 nx).2 = (login_post verify db e2 p2 nx).2 ∧
    (login_post verify db e1 p1 nx).2 =
      Resp.redirectNotice "auth.login" "Credenciais inválidas." "danger" ∧
    (login_post verify db e1 p1 nx).1 = none ∧ (login_post verify db e2 p2 nx).1 = none := by
  simp [login_post, h1, h2, hv]

/-- Witness for C10: unknown email bob against the one-user database, and the
registered email (in mixed case, normalized before lookup) with a rejected
password. -/
theorem login_failure_indistinguishable_witness :
    (login_post (fun _ _ => false) loginDB "bob@x.com" "pw" "index").2 =
      (login_post (fun _ _ => false) loginDB "Ana@x.com" "pw" "index").2 ∧
    (login_post (fun _ _ => false) loginDB "bob@x.com" "pw" "index").2 =
      Resp.redirectNotice "auth.login" "Credenciais inválidas." "danger" ∧
    (login_post (fun _ _ => false) loginDB "bob@x.com" "pw" "index").1 = none ∧
    (login_post (fun _ _ => false) loginDB "Ana@x.com" "pw" "index").1 = none :=
  login_failure_indistinguishable (fun _ _ => false) loginDB "bob@x.com" "pw" "Ana@x.com" "pw"
    "index" ⟨1, "Ana", "ana@x.com", "H", "student"⟩ (by decide) (by decide) (by decide)

end IpeLMS
